import Mathlib

/-!
Verification of the server bootstrap in `src/lib/server.ts` (the `server`
function): a shallow embedding of its request-rendering path, error
classification, static-asset configuration, micro-cache key function and
production/development mode selection, followed by theorems settling the
specification's claims about them.

External collaborators (express response objects, console logging, the
route-cache middleware, the filesystem) are embedded as explicit data:
a response is a trace of actions, the filesystem is a record of read
functions, and time is an explicit parameter.
-/

namespace Y1l

/-- An incoming HTTP request, reduced to the fields `server.ts` reads:
`req.url` (used for the render context default and error logging) and
`req.originalUrl` (used as the micro-cache key). -/
structure Request where
  url : String
  originalUrl : String
deriving DecidableEq

/-- One observable effect performed on the express response object or the
console while handling a request. A request handler produces a list of
these, in order. -/
inductive ResponseAction where
  /-- res.setHeader(name, value) -/
  | setHeader (name value : String) : ResponseAction
  /-- res.redirect(target): an HTTP redirect (302 by express default), no body rendered. -/
  | redirect (target : String) : ResponseAction
  /-- res.status(status).send(body) -/
  | sendStatus (status : Nat) (body : String) : ResponseAction
  /-- res.send(body): body with the implicit 200 status. -/
  | send (body : String) : ResponseAction
  /-- console.error(msg) -/
  | logError (msg : String) : ResponseAction
  /-- console.log of the request timing in development mode; the wall-clock
  value interpolated into the message is not modelled. -/
  | logTiming : ResponseAction
deriving DecidableEq

/-- The failure value a render can produce, reduced to the fields the code
inspects: `err.url` (checked for truthiness), `err.code` (compared with 404
by strict equality) and `err.stack` (logged). `none` models an absent field. -/
structure RenderError where
  url : Option String
  code : Option Int
  stack : String
deriving DecidableEq

/-- Outcome of `renderer.renderToString`: an HTML string or a failure value. -/
inductive RenderOutcome where
  | ok (html : String) : RenderOutcome
  | err (e : RenderError) : RenderOutcome
deriving DecidableEq

/-- An application-supplied render context: each field is `some v` when the
returned object carries that field and `none` when it is absent. Only the
two keys occurring in the defaults matter to the claims. -/
structure AppContext where
  title : Option String
  url : Option String
deriving DecidableEq

/-- The effective render context passed to the renderer after merging with
the defaults: both fields are always present. -/
structure MergedContext where
  title : String
  url : String
deriving DecidableEq

/-- Modelled from the spec: the resolved configuration record produced by
`setConfig` in `./config`, a module of this repository that is not under
`src/`. Per the spec's configuration surface it carries `projectPath`,
`template`, `faviconURL`, `port`, `status404`, `status500`, a `context(req)`
hook and an optional `handleError(err)` hook, all consumed read-only.
The `handleError` hook is embedded as the trace of response actions it
performs on the failure value. -/
structure Config where
  projectPath : String
  template : String
  faviconURL : Option String
  port : Option Nat
  status404 : String
  status500 : String
  context : Request → AppContext
  handleError : Option (RenderError → List ResponseAction)

/-- path.resolve(config.projectPath, file), embedded as abstract path
joining: the claims only need distinct relative files to map to distinct
resolved paths in a fixed way. -/
def resolve (projectPath file : String) : String :=
  projectPath ++ "/" ++ file

/-- useMicroCache from line 19: process.env.MICRO_CACHE !== 'false'.
The environment variable is `none` when unset. -/
def useMicroCache (env : Option String) : Bool :=
  !(env == some "false")

/-- JS truthiness of the value read from an optional string field:
an absent field (undefined) and the empty string are falsy. -/
def jsTruthyStr : Option String → Bool
  | none => false
  | some s => !(s == "")

/-- The default error handler defined inside render (lines 99-110):
a truthy err.url yields a redirect; otherwise err.code === 404 yields
status 404 with config.status404; otherwise status 500 with
config.status500 followed by the two console.error calls. -/
def handleErrorActions (config : Config) (req : Request) (e : RenderError) :
    List ResponseAction :=
  if jsTruthyStr e.url then
    [ResponseAction.redirect (e.url.getD "")]
  else if e.code == some 404 then
    [ResponseAction.sendStatus 404 config.status404]
  else
    [ResponseAction.sendStatus 500 config.status500,
     ResponseAction.logError ("error during render : " ++ req.url),
     ResponseAction.logError e.stack]

/-- A JS value as it reaches Object.assign as source argument: either a
plain object (whose own enumerable fields are copied) or a function value
(which has no own enumerable fields, so nothing is copied). -/
inductive ResolvedContext where
  | obj (c : AppContext) : ResolvedContext
  | jsFunction (thunk : Unit → AppContext) : ResolvedContext

/-- The value the promise on line 112 resolves with.
Promise.resolve(() => config.context(req)) is given the arrow function
itself, not the result of calling it, and a function is not a thenable:
the promise resolves with that function value. The thunk is carried so the
embedding retains what the code would have computed had it been called. -/
def promiseResolvedValue (config : Config) (req : Request) : ResolvedContext :=
  ResolvedContext.jsFunction (fun _ => config.context req)

/-- Object.assign(defaults, context) on lines 113-119 for the two keys of
the defaults: an object source overrides each field it carries, a function
source contributes no own enumerable fields and leaves the defaults. -/
def objectAssign (defaults : MergedContext) : ResolvedContext → MergedContext
  | ResolvedContext.obj c =>
      { title := c.title.getD defaults.title, url := c.url.getD defaults.url }
  | ResolvedContext.jsFunction _ => defaults

/-- The effective render context the code passes to renderToString:
the promise's resolved value overlaid onto the defaults with
title = App and url = req.url. -/
def mergedContext (config : Config) (req : Request) : MergedContext :=
  objectAssign { title := "App", url := req.url } (promiseResolvedValue config req)

/-- Follows the spec's words, for comparison with mergedContext: the
effective context obtained by invoking the context-extraction function on
the request, awaiting its result, and overlaying it onto the defaults with
title = App and url = the request path, application fields overriding. -/
def specEffectiveContext (config : Config) (req : Request) : MergedContext :=
  let c := config.context req
  { title := c.title.getD "App", url := c.url.getD req.url }

/-- The render function (lines 94-133), given the behavior of the current
renderer as a function from the merged context to an outcome: sets the
Content-Type header, computes the context, invokes the renderer and either
sends the HTML (plus the timing log when not in production) or hands the
failure to the configured handler when present, else to the default one. -/
def render (isProd : Bool) (config : Config)
    (rendererFn : MergedContext → RenderOutcome) (req : Request) :
    List ResponseAction :=
  ResponseAction.setHeader "Content-Type" "text/html" ::
    match rendererFn (mergedContext config req) with
    | RenderOutcome.ok html =>
        ResponseAction.send html ::
          (if isProd then [] else [ResponseAction.logTiming])
    | RenderOutcome.err e =>
        match config.handleError with
        | some h => h e
        | none => handleErrorActions config req e

/-- The HTTP status of a response trace: the first terminal action decides
(send is the implicit 200, redirect the express-default 302). -/
def responseStatus : List ResponseAction → Option Nat
  | [] => none
  | ResponseAction.send _ :: _ => some 200
  | ResponseAction.sendStatus n _ :: _ => some n
  | ResponseAction.redirect _ :: _ => some 302
  | _ :: rest => responseStatus rest

/-- The body of a response trace: the first terminal action decides; a
redirect renders no body. -/
def responseBody : List ResponseAction → Option String
  | [] => none
  | ResponseAction.send b :: _ => some b
  | ResponseAction.sendStatus _ b :: _ => some b
  | ResponseAction.redirect _ :: _ => none
  | _ :: rest => responseBody rest

/-- The console.error messages of a response trace, in order. -/
def errorLogs : List ResponseAction → List String
  | [] => []
  | ResponseAction.logError m :: rest => m :: errorLogs rest
  | _ :: rest => errorLogs rest

/-- True when the trace sets Content-Type to text/html before any content
action (send, sendStatus or redirect). -/
def contentTypeSetBeforeBody : List ResponseAction → Bool
  | [] => true
  | ResponseAction.setHeader "Content-Type" "text/html" :: _ => true
  | ResponseAction.setHeader _ _ :: rest => contentTypeSetBeforeBody rest
  | ResponseAction.logError _ :: rest => contentTypeSetBeforeBody rest
  | ResponseAction.logTiming :: rest => contentTypeSetBeforeBody rest
  | ResponseAction.send _ :: _ => false
  | ResponseAction.sendStatus _ _ :: _ => false
  | ResponseAction.redirect _ :: _ => false

/-- A compiled server bundle (the content of vue-ssr-server-bundle.json),
opaque to this layer. -/
structure Bundle where
  data : String
deriving DecidableEq

/-- A client manifest (the content of vue-ssr-client-manifest.json),
opaque to this layer. -/
structure ClientManifest where
  data : String
deriving DecidableEq

/-- The options record handed to createBundleRenderer after the
Object.assign on lines 27-37: the caller-supplied template and client
manifest together with the fields the factory always sets (the LRU
component cache bounds, the basedir and the runInNewContext flag). -/
structure RendererOptions where
  template : Option String
  clientManifest : Option ClientManifest
  /-- LRU option max: the maximum number of cache entries. -/
  cacheMax : Nat
  /-- LRU option maxAge: entry expiry in milliseconds. -/
  cacheMaxAgeMs : Nat
  basedir : String
  runInNewContext : Bool
deriving DecidableEq

/-- The opaque renderer returned by the external createBundleRenderer,
reduced to the data it was constructed from. -/
structure BundleRenderer where
  bundle : Bundle
  options : RendererOptions
deriving DecidableEq

/-- createBundleRenderer from vue-server-renderer, as this layer uses it:
wraps the bundle and options into a renderer handle. -/
def createBundleRenderer (bundle : Bundle) (options : RendererOptions) :
    BundleRenderer :=
  { bundle := bundle, options := options }

/-- The options createRenderer receives from its callers: a template and a
client manifest, each possibly absent. -/
structure CreateRendererArgs where
  template : Option String
  clientManifest : Option ClientManifest
deriving DecidableEq

/-- createRenderer (lines 23-39): extends the caller's options with the
component cache (LRU with max 1000 and maxAge fifteen minutes in
milliseconds), the basedir resolved to ./dist, and runInNewContext set to
false, then calls createBundleRenderer. -/
def createRenderer (projectPath : String) (bundle : Bundle)
    (options : CreateRendererArgs) : BundleRenderer :=
  createBundleRenderer bundle
    { template := options.template
      clientManifest := options.clientManifest
      cacheMax := 1000
      cacheMaxAgeMs := 1000 * 60 * 15
      basedir := resolve projectPath "./dist"
      runInNewContext := false }

/-- The filesystem and module loader as the production branch uses them:
fs.readFileSync for the template and require for the two JSON artifacts. -/
structure FileSystem where
  readTextFile : String → String
  readBundle : String → Bundle
  readManifest : String → ClientManifest

/-- The mutable server state the mode selector and the catch-all route
operate on: the renderer handle, whether the dev-server rebuild callback
was registered, whether the catch-all dispatches directly (production) or
waits on readyPromise, whether readyPromise has resolved, the requests
suspended on readyPromise, and the log of rendered requests paired with
the renderer handle value they were rendered with. -/
structure SrvState where
  renderer : Option BundleRenderer
  rebuildCallback : Bool
  directDispatch : Bool
  ready : Bool
  waiting : List Request
  rendered : List (Request × Option BundleRenderer)
deriving DecidableEq

/-- The production branch of the mode selector (lines 45-59): read the
template synchronously from the resolved template path, require the server
bundle and the client manifest from the fixed ./dist paths, construct the
renderer once; no rebuild callback is registered and the catch-all route
uses render directly. -/
def prodSetup (config : Config) (fs : FileSystem) : SrvState :=
  let template := fs.readTextFile (resolve config.projectPath config.template)
  let bundle := fs.readBundle
    (resolve config.projectPath "./dist/vue-ssr-server-bundle.json")
  let clientManifest := fs.readManifest
    (resolve config.projectPath "./dist/vue-ssr-client-manifest.json")
  { renderer := some (createRenderer config.projectPath bundle
      { template := some template, clientManifest := some clientManifest })
    rebuildCallback := false
    directDispatch := true
    ready := true
    waiting := []
    rendered := [] }

/-- The development branch of the mode selector (lines 60-70): no renderer
yet, the rebuild callback is registered with the dev server, the catch-all
route waits on the unresolved readyPromise. -/
def devSetup : SrvState :=
  { renderer := none
    rebuildCallback := true
    directDispatch := false
    ready := false
    waiting := []
    rendered := [] }

/-- An event the running server reacts to: an incoming request on the
catch-all route, or the dev server signalling a (re)built bundle. -/
inductive Ev where
  | req (r : Request) : Ev
  | build (b : Bundle) (o : CreateRendererArgs) : Ev
deriving DecidableEq

/-- True exactly on build events. -/
def Ev.isBuild : Ev → Bool
  | Ev.build _ _ => true
  | Ev.req _ => false

/-- The request carried by a request event. -/
def Ev.asReq : Ev → Option Request
  | Ev.req r => some r
  | Ev.build _ _ => none

/-- One step of the server (lines 60-70 and 135-142). A request is rendered
at once when the catch-all dispatches directly (production) or when
readyPromise has resolved, and is otherwise suspended on readyPromise. A
build event invokes the registered rebuild callback, replacing the renderer
handle with a freshly created renderer; the first build also resolves
readyPromise, which releases every suspended request to render with the
then-current handle. Without a registered callback a build event changes
nothing. -/
def step (projectPath : String) (st : SrvState) : Ev → SrvState
  | Ev.req r =>
      if st.directDispatch then
        { st with rendered := st.rendered ++ [(r, st.renderer)] }
      else if st.ready then
        { st with rendered := st.rendered ++ [(r, st.renderer)] }
      else
        { st with waiting := st.waiting ++ [r] }
  | Ev.build b o =>
      if st.rebuildCallback then
        let rd := createRenderer projectPath b o
        if st.ready then
          { st with renderer := some rd }
        else
          { st with
              renderer := some rd
              ready := true
              waiting := []
              rendered := st.rendered ++ st.waiting.map (fun q => (q, some rd)) }
      else
        st

/-- Runs the server over a sequence of events. -/
def run (projectPath : String) (st : SrvState) : List Ev → SrvState
  | [] => st
  | e :: rest => run projectPath (step projectPath st e) rest

/-- A static-asset route registered with app.use: the mounted URL path, the
served file or directory, and the cache flag passed to serve. -/
structure StaticRoute where
  urlPath : String
  file : String
  cacheable : Bool
deriving DecidableEq

/-- The maxAge express.static option computed by serve (lines 72-75):
thirty days in milliseconds when the cache flag is set and the process is
in production, otherwise 0. -/
def serveMaxAge (isProd cacheFlag : Bool) : Nat :=
  if cacheFlag && isProd then 1000 * 60 * 60 * 24 * 30 else 0

/-- The four static-asset routes registered on lines 81-84, in order. -/
def staticRoutes : List StaticRoute :=
  [{ urlPath := "/dist", file := "./dist", cacheable := true },
   { urlPath := "/public", file := "./public", cacheable := true },
   { urlPath := "/manifest.json", file := "./manifest.json", cacheable := true },
   { urlPath := "/service-worker.js", file := "./dist/service-worker.js",
     cacheable := false }]

/-- The cache key computed by the arrow function on line 92, the JS value
useMicroCache && req.originalUrl reduced to its truthiness content: none
when the expression is falsy (false, or the empty string), some url when it
is the truthy string req.originalUrl. -/
def microCacheKey (env : Option String) (req : Request) : Option String :=
  if useMicroCache env then
    if req.originalUrl == "" then none else some req.originalUrl
  else none

/-- The stored entries of the micro-cache: key, cached response body, and
the time (in milliseconds) the entry was stored. -/
structure MicroCacheStore where
  entries : List (String × String × Nat)

/-- Modelled from the spec: the route-cache middleware installed by
microcache.cacheSeconds(1, keyFn) is an external library, not code of this
repository. Per the spec it is a 1-second response cache keyed by the key
function's result, and a request whose key is falsy bypasses the cache.
This returns the cached response served for a request, or none when the
request bypasses the cache or no live entry exists. -/
def microCacheServe (env : Option String) (store : MicroCacheStore)
    (now : Nat) (req : Request) : Option String :=
  match microCacheKey env req with
  | none => none
  | some k =>
      match store.entries.find? (fun e => e.1 == k && Nat.blt now (e.2.2 + 1000)) with
      | some e => some e.2.1
      | none => none

/-! Concrete fixtures used by witnesses and counterexample evaluations. -/

/-- A concrete request to the path /a. -/
def reqA : Request := { url := "/a", originalUrl := "/a" }

/-- A concrete configuration with no custom error handler and a context
hook returning the empty context. -/
def cfgA : Config :=
  { projectPath := "/app"
    template := "index.html"
    faviconURL := none
    port := none
    status404 := "not found"
    status500 := "oops"
    context := fun _ => { title := none, url := none }
    handleError := none }

/-- A concrete render failure with no redirect URL and no code. -/
def errPlain : RenderError := { url := none, code := none, stack := "trace" }

/-- A concrete custom error handler whose trace differs from every default
classification outcome. -/
def customHandler : RenderError → List ResponseAction :=
  fun e => [ResponseAction.sendStatus 503 e.stack]

/-- cfgA with the custom error handler configured. -/
def cfgB : Config := { cfgA with handleError := some customHandler }

/-- cfgA with a context hook supplying a custom title, the input on which
the claimed context merge fails. -/
def cfgCustomTitle : Config :=
  { cfgA with context := fun _ => { title := some "Custom", url := none } }

/-- A concrete filesystem for evaluating the production setup. -/
def fsA : FileSystem :=
  { readTextFile := fun _ => "tmpl"
    readBundle := fun _ => { data := "bundle" }
    readManifest := fun _ => { data := "manifest" } }

/-! Theorems settling the claims. -/

/-- C6: every renderer constructed by the createRenderer factory carries a
component cache bounded to 1000 entries with a fifteen-minute (in
milliseconds) expiry, and has runInNewContext disabled. -/
theorem createRenderer_cache_and_context (projectPath : String)
    (bundle : Bundle) (options : CreateRendererArgs) :
    (createRenderer projectPath bundle options).options.cacheMax = 1000 ∧
    (createRenderer projectPath bundle options).options.cacheMaxAgeMs =
      15 * 60 * 1000 ∧
    (createRenderer projectPath bundle options).options.runInNewContext =
      false :=
  ⟨rfl, by norm_num [createRenderer, createBundleRenderer], rfl⟩

/-- C7: the max-age of a static-asset route equals thirty days in
milliseconds exactly when its cache flag is set and the process is in
production, and equals 0 otherwise; the /dist, /public and /manifest.json
routes are cacheable and /service-worker.js is not. -/
theorem static_asset_cache_policy :
    (∀ isProd cacheFlag : Bool,
      (serveMaxAge isProd cacheFlag = 30 * 24 * 60 * 60 * 1000 ↔
        cacheFlag = true ∧ isProd = true) ∧
      (serveMaxAge isProd cacheFlag = 0 ↔ ¬(cacheFlag = true ∧ isProd = true))) ∧
    staticRoutes.map (fun r => (r.urlPath, r.cacheable)) =
      [("/dist", true), ("/public", true), ("/manifest.json", true),
       ("/service-worker.js", false)] := by
  constructor
  · intro p c
    cases p <;> cases c <;> constructor <;> norm_num [serveMaxAge]
  · rfl

/-- C10: micro-caching is disabled exactly when the MICRO_CACHE environment
variable equals the string false by strict comparison; the values False,
FALSE, 0, and the variable being unset all leave it enabled. -/
theorem microCache_toggle_strict_comparison :
    (∀ env : Option String, useMicroCache env = false ↔ env = some "false") ∧
    useMicroCache (some "False") = true ∧
    useMicroCache (some "FALSE") = true ∧
    useMicroCache (some "0") = true ∧
    useMicroCache none = true := by
  refine ⟨?_, by decide, by decide, by decide, rfl⟩
  intro env
  cases env with
  | none => simp [useMicroCache]
  | some s => simp [useMicroCache]

/-- C8: with MICRO_CACHE set to false every request bypasses the micro
cache (no cached response is ever served), and with any other value the
cache key of a request with a nonempty URL is exactly its full request
URL. -/
theorem microCache_bypass_and_key (store : MicroCacheStore) (now : Nat)
    (req : Request) (env : Option String)
    (henv : env ≠ some "false") (hurl : req.originalUrl ≠ "") :
    microCacheServe (some "false") store now req = none ∧
    microCacheKey env req = some req.originalUrl := by
  constructor
  · simp [microCacheServe, microCacheKey, useMicroCache]
  · simp [microCacheKey, useMicroCache, henv, hurl]

/-- Witness for C8 at a concrete store, time, request and environment. -/
theorem microCache_bypass_and_key_witness :
    microCacheServe (some "false") { entries := [("/a", "cached", 0)] } 500
      reqA = none ∧
    microCacheKey (some "true") reqA = some "/a" := by
  have h := microCache_bypass_and_key { entries := [("/a", "cached", 0)] } 500
    reqA (some "true") (by decide) (by decide)
  exact ⟨h.1, h.2⟩

/-- C1: the context-extraction hook is never invoked. The promise on line
112 is given the arrow function itself, so the effective context is always
the bare defaults; on a configuration whose hook supplies a custom title,
the code produces title App while the specified merge produces title
Custom. -/
theorem context_hook_never_invoked :
    (∀ (config : Config) (req : Request),
      mergedContext config req = { title := "App", url := req.url }) ∧
    mergedContext cfgCustomTitle reqA = { title := "App", url := "/a" } ∧
    specEffectiveContext cfgCustomTitle reqA = { title := "Custom", url := "/a" } ∧
    mergedContext cfgCustomTitle reqA ≠ specEffectiveContext cfgCustomTitle reqA := by
  refine ⟨fun config req => rfl, rfl, rfl, by decide⟩

/-- C2: with no custom handler configured, a render failure is classified
in order: a truthy url field yields a redirect to that URL with no body
rendered; otherwise code 404 yields status 404 with the configured
status404 body; otherwise status 500 with the configured status500 body
and error log entries carrying the request URL and the stack trace. -/
theorem default_error_classification (isProd : Bool) (config : Config)
    (rendererFn : MergedContext → RenderOutcome) (req : Request)
    (e : RenderError)
    (hDefault : config.handleError = none)
    (hFail : rendererFn (mergedContext config req) = RenderOutcome.err e) :
    (∀ u, e.url = some u → u ≠ "" →
      render isProd config rendererFn req =
        [ResponseAction.setHeader "Content-Type" "text/html",
         ResponseAction.redirect u] ∧
      responseBody (render isProd config rendererFn req) = none) ∧
    (jsTruthyStr e.url = false → e.code = some 404 →
      responseStatus (render isProd config rendererFn req) = some 404 ∧
      responseBody (render isProd config rendererFn req) =
        some config.status404) ∧
    (jsTruthyStr e.url = false → e.code ≠ some 404 →
      responseStatus (render isProd config rendererFn req) = some 500 ∧
      responseBody (render isProd config rendererFn req) =
        some config.status500 ∧
      errorLogs (render isProd config rendererFn req) =
        ["error during render : " ++ req.url, e.stack]) := by
  refine ⟨?_, ?_, ?_⟩
  · intro u hu hne
    have htr : jsTruthyStr (some u) = true := by
      simp [jsTruthyStr, hne]
    simp [render, hFail, hDefault, handleErrorActions, hu, htr,
      responseBody]
  · intro htr hcode
    simp [render, hFail, hDefault, handleErrorActions, htr, hcode,
      responseStatus, responseBody]
  · intro htr hcode
    simp [render, hFail, hDefault, handleErrorActions, htr, hcode,
      responseStatus, responseBody, errorLogs]

/-- Witness for C2: the plain failure on the concrete configuration yields
status 500, the configured body, and the two log entries. -/
theorem default_error_classification_witness :
    responseStatus (render true cfgA (fun _ => RenderOutcome.err errPlain)
      reqA) = some 500 ∧
    responseBody (render true cfgA (fun _ => RenderOutcome.err errPlain)
      reqA) = some "oops" ∧
    errorLogs (render true cfgA (fun _ => RenderOutcome.err errPlain)
      reqA) = ["error during render : /a", "trace"] := by
  have h := default_error_classification true cfgA
    (fun _ => RenderOutcome.err errPlain) reqA errPlain rfl rfl
  have h3 := h.2.2 (by decide) (by decide)
  exact ⟨h3.1, h3.2.1, h3.2.2⟩

/-- C3: a render success yields status 200, a body equal to exactly the
rendered HTML string, and the Content-Type header set to text/html before
any content action. -/
theorem successful_render_response (isProd : Bool) (config : Config)
    (rendererFn : MergedContext → RenderOutcome) (req : Request)
    (html : String)
    (hOk : rendererFn (mergedContext config req) = RenderOutcome.ok html) :
    responseStatus (render isProd config rendererFn req) = some 200 ∧
    responseBody (render isProd config rendererFn req) = some html ∧
    contentTypeSetBeforeBody (render isProd config rendererFn req) = true := by
  simp [render, hOk, responseStatus, responseBody, contentTypeSetBeforeBody]

/-- Witness for C3 at a concrete renderer producing a fixed HTML string. -/
theorem successful_render_response_witness :
    responseStatus (render true cfgA
      (fun _ => RenderOutcome.ok "<html>OK</html>") reqA) = some 200 ∧
    responseBody (render true cfgA
      (fun _ => RenderOutcome.ok "<html>OK</html>") reqA) =
      some "<html>OK</html>" ∧
    contentTypeSetBeforeBody (render true cfgA
      (fun _ => RenderOutcome.ok "<html>OK</html>") reqA) = true :=
  successful_render_response true cfgA
    (fun _ => RenderOutcome.ok "<html>OK</html>") reqA "<html>OK</html>" rfl

/-- C4: with a custom error handler configured, a render failure is passed
entirely to it and the response trace is exactly the header followed by
the handler's own actions; no default classification occurs. -/
theorem custom_handler_replaces_default (isProd : Bool) (config : Config)
    (rendererFn : MergedContext → RenderOutcome) (req : Request)
    (e : RenderError) (h : RenderError → List ResponseAction)
    (hCustom : config.handleError = some h)
    (hFail : rendererFn (mergedContext config req) = RenderOutcome.err e) :
    render isProd config rendererFn req =
      ResponseAction.setHeader "Content-Type" "text/html" :: h e := by
  simp [render, hFail, hCustom]

/-- Witness for C4: the concrete custom handler's trace is produced. -/
theorem custom_handler_replaces_default_witness :
    render true cfgB (fun _ => RenderOutcome.err errPlain) reqA =
      [ResponseAction.setHeader "Content-Type" "text/html",
       ResponseAction.sendStatus 503 "trace"] :=
  custom_handler_replaces_default true cfgB
    (fun _ => RenderOutcome.err errPlain) reqA errPlain customHandler rfl rfl

/-- With no rebuild callback registered, one step never changes the
renderer handle nor registers a callback. -/
lemma step_renderer_of_no_callback (pp : String) (st : SrvState) (e : Ev)
    (h : st.rebuildCallback = false) :
    (step pp st e).renderer = st.renderer ∧
    (step pp st e).rebuildCallback = false := by
  cases e with
  | req r =>
      simp only [step]
      split
      · exact ⟨rfl, h⟩
      · split
        · exact ⟨rfl, h⟩
        · exact ⟨rfl, h⟩
  | build b o => simp [step, h]

/-- With no rebuild callback registered, no event sequence changes the
renderer handle. -/
lemma run_renderer_of_no_callback (pp : String) (events : List Ev)
    (st : SrvState) (h : st.rebuildCallback = false) :
    (run pp st events).renderer = st.renderer := by
  induction events generalizing st with
  | nil => rfl
  | cons e rest ih =>
      have hs := step_renderer_of_no_callback pp st e h
      rw [run, ih (step pp st e) hs.2, hs.1]

/-- C9: the production setup constructs the renderer exactly once, from the
template read at the resolved template path and the two JSON artifacts read
at the fixed dist paths; it registers no rebuild callback, and the renderer
handle is never replaced by any subsequent sequence of events. -/
theorem production_renderer_constructed_once (config : Config)
    (fs : FileSystem) (events : List Ev) :
    (prodSetup config fs).renderer =
      some (createRenderer config.projectPath
        (fs.readBundle
          (resolve config.projectPath "./dist/vue-ssr-server-bundle.json"))
        { template := some (fs.readTextFile
            (resolve config.projectPath config.template))
          clientManifest := some (fs.readManifest
            (resolve config.projectPath
              "./dist/vue-ssr-client-manifest.json")) }) ∧
    (prodSetup config fs).rebuildCallback = false ∧
    (run config.projectPath (prodSetup config fs) events).renderer =
      (prodSetup config fs).renderer :=
  ⟨rfl, rfl,
    run_renderer_of_no_callback config.projectPath events (prodSetup config fs)
      rfl⟩

/-- Running a sequence of build-free events from a development state whose
readiness has not resolved only queues the incoming requests, in order. -/
lemma run_build_free (pp : String) (events : List Ev) (st : SrvState)
    (hd : st.directDispatch = false) (hready : st.ready = false)
    (hb : ∀ e ∈ events, e.isBuild = false) :
    run pp st events =
      { st with waiting := st.waiting ++ events.filterMap Ev.asReq } := by
  induction events generalizing st with
  | nil => simp [run]
  | cons e rest ih =>
      cases e with
      | build b o =>
          have : Ev.isBuild (Ev.build b o) = false :=
            hb (Ev.build b o) (List.mem_cons_self _ _)
          simp [Ev.isBuild] at this
      | req r =>
          have hstep : step pp st (Ev.req r) =
              { st with waiting := st.waiting ++ [r] } := by
            simp [step, hd, hready]
          have hrest : ∀ e ∈ rest, e.isBuild = false :=
            fun e he => hb e (List.mem_cons_of_mem _ he)
          rw [run, hstep, ih { st with waiting := st.waiting ++ [r] } hd
            hready hrest]
          simp [Ev.asReq, List.append_assoc]

/-- C5: in development mode, a request arriving among the events before the
first build is not rendered (it is queued on the readiness signal) and,
once the first build event arrives, it is rendered with the renderer
created from that build; a state whose catch-all dispatches directly
(production) renders an incoming request at once. -/
theorem dev_request_waits_for_first_build (pp : String) (pre : List Ev)
    (b : Bundle) (o : CreateRendererArgs) (r : Request)
    (hpre : ∀ e ∈ pre, e.isBuild = false) (hr : Ev.req r ∈ pre) :
    (run pp devSetup pre).rendered = [] ∧
    r ∈ (run pp devSetup pre).waiting ∧
    (r, some (createRenderer pp b o)) ∈
      (step pp (run pp devSetup pre) (Ev.build b o)).rendered ∧
    (∀ st : SrvState, st.directDispatch = true →
      step pp st (Ev.req r) =
        { st with rendered := st.rendered ++ [(r, st.renderer)] }) := by
  have hrun := run_build_free pp pre devSetup rfl rfl hpre
  have hwait : (run pp devSetup pre).waiting = pre.filterMap Ev.asReq := by
    rw [hrun]; simp [devSetup]
  have hmem : r ∈ pre.filterMap Ev.asReq :=
    List.mem_filterMap.mpr ⟨Ev.req r, hr, rfl⟩
  refine ⟨by rw [hrun]; simp [devSetup], by rw [hwait]; exact hmem, ?_, ?_⟩
  · have hstate : (run pp devSetup pre).rebuildCallback = true := by
      rw [hrun]; simp [devSetup]
    have hready : (run pp devSetup pre).ready = false := by
      rw [hrun]; simp [devSetup]
    have hstep : (step pp (run pp devSetup pre) (Ev.build b o)).rendered =
        (run pp devSetup pre).rendered ++
          (run pp devSetup pre).waiting.map
            (fun q => (q, some (createRenderer pp b o))) := by
      simp [step, hstate, hready]
    rw [hstep, hrun]
    simp only [List.nil_append]
    exact List.mem_map.mpr ⟨r, hmem, rfl⟩
  · intro st hdd
    simp [step, hdd]

/-- Witness for C5: one request before the first build is queued, then
rendered with the first build's renderer; the production setup renders a
request directly. -/
theorem dev_request_waits_for_first_build_witness :
    (run "/app" devSetup [Ev.req reqA]).rendered = [] ∧
    reqA ∈ (run "/app" devSetup [Ev.req reqA]).waiting ∧
    (reqA, some (createRenderer "/app" { data := "b" }
      { template := none, clientManifest := none })) ∈
      (step "/app" (run "/app" devSetup [Ev.req reqA])
        (Ev.build { data := "b" }
          { template := none, clientManifest := none })).rendered ∧
    step "/app" (prodSetup cfgA fsA) (Ev.req reqA) =
      { prodSetup cfgA fsA with
          rendered := [(reqA, (prodSetup cfgA fsA).renderer)] } := by
  have h := dev_request_waits_for_first_build "/app" [Ev.req reqA]
    { data := "b" } { template := none, clientManifest := none } reqA
    (by decide) (by decide)
  refine ⟨h.1, h.2.1, h.2.2.1, ?_⟩
  have h4 := h.2.2.2 (prodSetup cfgA fsA) rfl
  simpa [prodSetup] using h4

end Y1l
